import Mathlib

/-!
Verification development for the disaster-response multi-agent simulation.

The development shallowly embeds the three core components of the repository:

1. the environment model of lab2/perception_and_environment_modelling.py
   (environmental conditions, clamped updates, severity banding, disaster
   event creation with a monotone event counter);
2. the finite-state response pipeline of lab3/rescue_respond_agent.py
   (IDLE, ANALYZING, PLANNING, RESPONDING, MONITORING, COMPLETED), with the
   random message payloads, stream of received messages and random draws
   supplied as explicit inputs;
3. the coordination protocol of lab4/fipa_acl.py (resource requests from the
   command center, resource grants by rescue agents, sensor event payloads).

Modelling conventions: Python floats are modelled as rationals (every
comparison in the source is against a decimally-representable constant, so
the comparisons are exact in both models); Python ints are modelled as Int
(or Nat for counters that never go negative); wall-clock ISO timestamps are
not modelled, since no behavior of the code depends on their value; random
draws are passed in as explicit arguments.
-/

/-! Part 0: decimal formatting.

Python renders event and goal identifiers with zero-padded decimal format
strings (EVENT-%04d and GOAL-%03d).  We model the decimal digits of a
natural number with a fuel-based structural recursion so that everything
computes by definitional reduction, and a zero-padding step.  Digits are
little-endian; the rendered string reverses them to the usual order. -/

/-- Little-endian base-10 digits with explicit fuel; fuel at least n is
enough since the argument shrinks by a factor of 10 every step. -/
def decDigitsAux : Nat → Nat → List Nat
  | 0, _ => []
  | _ + 1, 0 => []
  | fuel + 1, n + 1 => (n + 1) % 10 :: decDigitsAux fuel ((n + 1) / 10)

/-- Little-endian base-10 digits of a natural number (empty for 0). -/
def decDigits (n : Nat) : List Nat := decDigitsAux n n

/-- Little-endian digits padded with zero digits up to width w, which is
exactly the digit content of a %0wd zero-padded decimal rendering. -/
def padDigitsLE (w n : Nat) : List Nat :=
  decDigits n ++ List.replicate (w - (decDigits n).length) 0

/-- Zero-padded decimal rendering of n at width w, as done by %04d or %03d
format strings in the source. -/
def decimalPad (w n : Nat) : String :=
  String.mk (((padDigitsLE w n).reverse).map Nat.digitChar)

/-- Plain decimal rendering of n with no padding. -/
def natDecimal (n : Nat) : String :=
  String.mk (((decDigits n).reverse).map Nat.digitChar)

/-- Event identifier EVENT-%04d as rendered by the lab2 environment model
and the lab3 sensor agent. -/
def eventIdString (n : Nat) : String := "EVENT-" ++ decimalPad 4 n

/-- Goal identifier GOAL-%03d as rendered by the lab3 response agent. -/
def goalIdString (n : Nat) : String := "GOAL-" ++ decimalPad 3 n

/-! Part 1: lab2 environment model. -/

/-- Closed enumeration of disaster types (lab2 variant with six members). -/
inductive DisasterType where
  | EARTHQUAKE
  | FLOOD
  | FIRE
  | HURRICANE
  | TORNADO
  | TSUNAMI
deriving DecidableEq

/-- Closed ordinal enumeration of severity levels 1 to 5. -/
inductive SeverityLevel where
  | MINIMAL
  | LOW
  | MODERATE
  | HIGH
  | CRITICAL
deriving DecidableEq

/-- Numeric value of a severity level, mirroring the Enum values 1 to 5. -/
def SeverityLevel.val : SeverityLevel → Int
  | .MINIMAL => 1
  | .LOW => 2
  | .MODERATE => 3
  | .HIGH => 4
  | .CRITICAL => 5

/-- Name string of a severity level, mirroring the Enum member names. -/
def SeverityLevel.levelName : SeverityLevel → String
  | .MINIMAL => "MINIMAL"
  | .LOW => "LOW"
  | .MODERATE => "MODERATE"
  | .HIGH => "HIGH"
  | .CRITICAL => "CRITICAL"

/-- Snapshot of the six environmental readings of lab2.  The wall-clock
timestamp field is not modelled. -/
structure EnvironmentalCondition where
  temperature : ℚ
  humidity : ℚ
  wind_speed : ℚ
  air_quality : Int
  water_level : ℚ
  seismic_activity : ℚ
deriving DecidableEq

/-- Initial conditions built by DisasterEnvironment on construction. -/
def initialConditions : EnvironmentalCondition :=
  { temperature := 22
    humidity := 60
    wind_speed := 15
    air_quality := 50
    water_level := 2
    seismic_activity := 0 }

/-- One set of random draws consumed by update_conditions: the five additive
perturbations (uniform or randint in the source) and the fresh seismic
draw that replaces the previous seismic reading. -/
structure Perturbation where
  dTemperature : ℚ
  dHumidity : ℚ
  dWind : ℚ
  dAirQuality : Int
  dWaterLevel : ℚ
  newSeismic : ℚ

/-- Embedding of DisasterEnvironment.update_conditions: perturb each field,
replace seismic activity by its fresh draw, then clamp every field except
seismic activity to its physical range. -/
def update_conditions (c : EnvironmentalCondition) (p : Perturbation) :
    EnvironmentalCondition :=
  { temperature := max (-10) (min 45 (c.temperature + p.dTemperature))
    humidity := max 0 (min 100 (c.humidity + p.dHumidity))
    wind_speed := max 0 (min 150 (c.wind_speed + p.dWind))
    air_quality := max 0 (min 500 (c.air_quality + p.dAirQuality))
    water_level := max 0 (min 20 (c.water_level + p.dWaterLevel))
    seismic_activity := p.newSeismic }

/-- Declared clamp ranges of the five clamped condition fields. -/
def conditionsInRange (c : EnvironmentalCondition) : Prop :=
  -10 ≤ c.temperature ∧ c.temperature ≤ 45 ∧
  0 ≤ c.humidity ∧ c.humidity ≤ 100 ∧
  0 ≤ c.wind_speed ∧ c.wind_speed ≤ 150 ∧
  0 ≤ c.air_quality ∧ c.air_quality ≤ 500 ∧
  0 ≤ c.water_level ∧ c.water_level ≤ 20

/-- Embedding of DisasterEnvironment._determine_earthquake_severity. -/
def determine_earthquake_severity (magnitude : ℚ) : SeverityLevel :=
  if magnitude < 4.5 then .MINIMAL
  else if magnitude < 5.5 then .LOW
  else if magnitude < 6.5 then .MODERATE
  else if magnitude < 7.5 then .HIGH
  else .CRITICAL

/-- Embedding of DisasterEnvironment._generate_description; every disaster
type is a key of the description table, so the dict.get default is
unreachable and the match is total. -/
def generate_description (dt : DisasterType) (sev : SeverityLevel) : String :=
  match dt with
  | .EARTHQUAKE => sev.levelName ++ " earthquake detected with significant ground shaking"
  | .FLOOD => sev.levelName ++ " flooding detected with rising water levels"
  | .FIRE => sev.levelName ++ " wildfire detected with rapid spread"
  | .HURRICANE => sev.levelName ++ " hurricane detected with extreme winds"
  | .TORNADO => sev.levelName ++ " tornado detected with severe damage potential"
  | .TSUNAMI => sev.levelName ++ " tsunami warning with potential coastal impact"

/-- Rounding to two decimal places.  Python round uses round-half-to-even
on binary floats while Mathlib round is round-half-up; the two agree except
on exact half-cent values, and no claim depends on that boundary. -/
def round2 (q : ℚ) : ℚ := (round (q * 100) : ℤ) / 100

/-- Random draws consumed by one _create_disaster_event call. -/
structure EventDraw where
  uArea : ℚ
  uCasualties : Int
  uDamage : ℚ

/-- Disaster event record of lab2 (timestamp not modelled). -/
structure DisasterEvent where
  event_id : String
  disaster_type : DisasterType
  severity : SeverityLevel
  location : String
  affected_area_km2 : ℚ
  casualties_estimated : Int
  damage_cost_usd : ℚ
  description : String
deriving DecidableEq

/-- Embedding of DisasterEnvironment._create_disaster_event, applied after
the event counter has been incremented, so counter is the value used in the
rendered identifier. -/
def create_disaster_event (counter : Nat) (dt : DisasterType)
    (sev : SeverityLevel) (d : EventDraw) (location : String) : DisasterEvent :=
  { event_id := eventIdString counter
    disaster_type := dt
    severity := sev
    location := location
    affected_area_km2 := round2 ((sev.val : ℚ) * d.uArea)
    casualties_estimated := sev.val * d.uCasualties
    damage_cost_usd := round2 ((sev.val : ℚ) * d.uDamage)
    description := generate_description dt sev }

/-- Sequence of event creations by one DisasterEnvironment instance:
each creation increments the owned event counter and then renders it into
the identifier, mirroring the counter discipline of the source. -/
def createEventsFrom (counter : Nat) (location : String) :
    List (DisasterType × SeverityLevel × EventDraw) → List DisasterEvent
  | [] => []
  | (dt, sev, d) :: rest =>
      create_disaster_event (counter + 1) dt sev d location ::
        createEventsFrom (counter + 1) location rest

/-! Part 2: lab4 coordination protocol. -/

/-- Resource pool with the three independent counters held by a rescue
agent and carried in the protocol payloads. -/
structure Resources where
  rescue_teams : Int
  medical_units : Int
  equipment : Int
deriving DecidableEq

/-- Payload of the inform-type resource response sent by a rescue agent. -/
structure ResourceResponse where
  event_id : String
  agent_id : String
  status : String
  resources_available : Resources
deriving DecidableEq

/-- Embedding of RescueAgent.ReceiveRequestBehaviour._handle_resource_request:
grant min of requested and held per resource type, decrement the held pool
by the granted amounts, and reply with the granted amounts under the
resources_allocated status tag. -/
def handle_resource_request (held requested : Resources)
    (eid agent_id : String) : Resources × ResourceResponse :=
  let available : Resources :=
    { rescue_teams := min requested.rescue_teams held.rescue_teams
      medical_units := min requested.medical_units held.medical_units
      equipment := min requested.equipment held.equipment }
  let newHeld : Resources :=
    { rescue_teams := held.rescue_teams - available.rescue_teams
      medical_units := held.medical_units - available.medical_units
      equipment := held.equipment - available.equipment }
  (newHeld,
    { event_id := eid
      agent_id := agent_id
      status := "resources_allocated"
      resources_available := available })

/-- Request-type resource request message as assembled by the command
center, with its metadata conversation id and its JSON body fields. -/
structure ResourceRequestMsg where
  to_agent : String
  conversation_id : String
  event_id : String
  disaster_type : String
  severity : Int
  resources_requested : Resources
deriving DecidableEq

/-- Embedding of CommandCenterAgent.ReceiveAlertBehaviour._request_rescue_resources:
resource demand is a linear function of severity and one request message is
sent to every known rescue agent, all tagged with the event id as the
conversation id. -/
def request_rescue_resources (severity : Int) (eid dt : String)
    (rescue_agents : List String) : List ResourceRequestMsg :=
  let resources_needed : Resources :=
    { rescue_teams := severity * 2
      medical_units := severity * 1
      equipment := severity * 3 }
  rescue_agents.map (fun a =>
    { to_agent := a
      conversation_id := eid
      event_id := eid
      disaster_type := dt
      severity := severity
      resources_requested := resources_needed })

/-- Known rescue agents configured in CommandCenterAgent.setup. -/
def lab4_rescue_agents : List String :=
  ["rescue1@localhost", "rescue2@localhost"]

/-- Disaster alert payload produced by the lab4 sensor agent. -/
structure Lab4DisasterMsg where
  event_id : String
  disaster_type : String
  severity : Int
  severity_name : String
  location : String
deriving DecidableEq

/-- Embedding of SensorAgent.DetectDisasterBehaviour._generate_disaster of
lab4: the event identifier is rendered from a random draw r in 1000..9999,
and the randomly chosen type and severity pair are passed in as arguments.
No counter is consulted or updated. -/
def lab4_generate_disaster (r : Nat) (dt : String) (sev : Int)
    (sevName : String) : Lab4DisasterMsg :=
  { event_id := "EVENT-" ++ natDecimal r
    disaster_type := dt
    severity := sev
    severity_name := sevName
    location := "Disaster Zone Alpha" }

/-! Part 3: lab3 response state machine.

The response agent consumes JSON message bodies.  Parsed JSON values are
modelled by an inductive type; a body whose json.loads call raises
JSONDecodeError is modelled as the absence of a parsed value.  JSON numbers
are modelled as integers, which covers every payload the repository
produces for the fields the pipeline reads. -/

/-- Parsed JSON value. -/
inductive Json where
  | null
  | bool (b : Bool)
  | num (n : Int)
  | str (s : String)
  | arr (elems : List Json)
  | obj (fields : List (String × Json))

/-- Lookup of a key in a JSON object, as dict indexing does after
json.loads (object keys are unique after parsing). -/
def jsonGet (fields : List (String × Json)) (key : String) : Option Json :=
  match fields with
  | [] => none
  | (k, v) :: rest => if k = key then some v else jsonGet rest key

/-- Lookup with a default, as dict.get does. -/
def jsonGetD (fields : List (String × Json)) (key : String) (dflt : Json) :
    Json :=
  (jsonGet fields key).getD dflt

/-- Rescue and response goal types of lab3. -/
inductive RescueGoal where
  | ASSESS_SITUATION
  | DEPLOY_RESOURCES
  | EVACUATE_CIVILIANS
  | PROVIDE_MEDICAL_AID
  | RESTORE_INFRASTRUCTURE
  | MONITOR_RECOVERY
deriving DecidableEq

/-- Agent goal record of lab3.  The created_at and completed_at wall-clock
fields are not modelled; completion is visible through status. -/
structure Goal where
  goal_id : String
  goal_type : RescueGoal
  priority : Int
  status : String
deriving DecidableEq

/-- Goal creation loop of PlanningState._generate_response_goals: the goal
counter is incremented before each creation and rendered into the id. -/
def mkPendingGoals (counter : Nat) : List (RescueGoal × Int) → List Goal
  | [] => []
  | (gt, pr) :: rest =>
      { goal_id := goalIdString (counter + 1)
        goal_type := gt
        priority := pr
        status := "pending" } :: mkPendingGoals (counter + 1) rest

/-- Embedding of PlanningState._generate_response_goals: two unconditional
basic goals, a medical goal for severity at least 3, an infrastructure goal
for severity at least 4, and an unconditional monitoring goal, all created
pending with sequential ids continuing from goal_counter. -/
def generate_response_goals (severity : Int) (goal_counter : Nat) :
    List Goal :=
  mkPendingGoals goal_counter
    ([(RescueGoal.DEPLOY_RESOURCES, 5), (RescueGoal.EVACUATE_CIVILIANS, 5)]
      ++ (if severity ≥ 3 then [(RescueGoal.PROVIDE_MEDICAL_AID, 4)] else [])
      ++ (if severity ≥ 4 then [(RescueGoal.RESTORE_INFRASTRUCTURE, 3)] else [])
      ++ [(RescueGoal.MONITOR_RECOVERY, 2)])

/-- Stable insertion of a goal into a descending-by-priority list: skip
the strictly higher priorities, land before the first priority less than
or equal to its own.  Together with sortGoalsDesc this is the unique
stable descending sort, which is what list.sort with reverse=True on the
priority key computes. -/
def insertGoal (g : Goal) : List Goal → List Goal
  | [] => [g]
  | h :: t => if g.priority < h.priority then h :: insertGoal g t else g :: h :: t

/-- Stable descending sort by priority, modelling the sorted execution
order computed by RespondingState.run. -/
def sortGoalsDesc : List Goal → List Goal
  | [] => []
  | h :: t => insertGoal h (sortGoalsDesc t)

/-- Pending goals of a goal list, in creation order. -/
def pendingOf (goals : List Goal) : List Goal :=
  goals.filter (fun g => g.status == "pending")

/-- Execution order of RespondingState.run: the pending goals sorted by
descending priority with ties in creation order. -/
def respondingOrder (goals : List Goal) : List Goal :=
  sortGoalsDesc (pendingOf goals)

/-- Completion of one executed goal. -/
def markCompleted (g : Goal) : Goal := { g with status := "completed" }

/-- Effect of RespondingState.run on the agent goal list: the loop mutates
exactly the goal objects whose status is pending (those are the members of
its sorted work list), setting each status to completed. -/
def respondingUpdate (goals : List Goal) : List Goal :=
  goals.map (fun g => if g.status == "pending" then markCompleted g else g)

/-- FSM state names of the response agent. -/
inductive FSMStateName where
  | IDLE
  | ANALYZING
  | PLANNING
  | RESPONDING
  | MONITORING
  | COMPLETED
deriving DecidableEq

/-- One entry of the append-only fsm_trace: the state that appended it, the
action description, and the extra payload fields of the dict entry (the
wall-clock timestamp is not modelled). -/
structure TraceEntry where
  state : FSMStateName
  action : String
  details : List (String × Json)

/-- Mutable state of the response agent observed by the FSM states. -/
structure AgentState where
  fsm : FSMStateName
  current_event : Option Json
  goals : List Goal
  fsm_trace : List TraceEntry

/-- Uncaught Python exceptions that can escape a state run method. -/
inductive RuntimeErr where
  | attributeErr
  | typeErr
  | zeroDivisionErr
deriving DecidableEq

/-- Input consumed by one IDLE visit: either the receive call timed out, or
a message arrived whose body either failed JSON decoding (none) or decoded
to a JSON value. -/
inductive IdleInput where
  | timeout
  | message (parsed : Option Json)

/-- Numeric reading of the severity payload value as used by the comparison
operators of Python: ints compare directly and bools compare as 0 or 1,
while any other JSON value raises TypeError when compared with an int. -/
def severityAsInt : Json → Except RuntimeErr Int
  | .num n => .ok n
  | .bool b => .ok (if b then 1 else 0)
  | _ => .error .typeErr

/-- Severity of the current event as read by PlanningState.run, defaulting
to 1 when the key is absent. -/
def eventSeverity (fields : List (String × Json)) : Except RuntimeErr Int :=
  severityAsInt (jsonGetD fields "severity" (.num 1))

/-- Embedding of IdleState.run.  A timeout loops to IDLE unchanged.  A body
that fails JSON decoding is caught (JSONDecodeError), logged and discarded,
looping to IDLE.  A decoded object is stored as the current event, one
trace entry is appended, and the machine moves to ANALYZING.  A decoded
non-object is stored and then the event_data.get call raises an uncaught
AttributeError. -/
def idle_run (s : AgentState) (input : IdleInput) :
    Except RuntimeErr AgentState :=
  match input with
  | .timeout => .ok { s with fsm := .IDLE }
  | .message none => .ok { s with fsm := .IDLE }
  | .message (some j) =>
      match j with
      | .obj fields =>
          .ok { s with
                current_event := some (Json.obj fields)
                fsm_trace := s.fsm_trace ++
                  [{ state := .IDLE
                     action := "Received disaster alert"
                     details := [("event_id",
                       jsonGetD fields "event_id" (.str "UNKNOWN"))] }]
                fsm := .ANALYZING }
      | _ => .error .attributeErr

/-- Embedding of AnalyzingState.run: append one ASSESS_SITUATION goal of
priority 5 whose status ends the visit as completed (the source sets it
active and completes it within the same visit), append one trace entry, and
move to PLANNING.  A missing or non-object current event would raise an
uncaught AttributeError at the event.get call. -/
def analyzing_run (s : AgentState) : Except RuntimeErr AgentState :=
  match s.current_event with
  | some (.obj fields) =>
      let sev := jsonGetD fields "severity" (.num 1)
      let goal : Goal :=
        { goal_id := goalIdString (s.goals.length + 1)
          goal_type := .ASSESS_SITUATION
          priority := 5
          status := "completed" }
      .ok { s with
            goals := s.goals ++ [goal]
            fsm_trace := s.fsm_trace ++
              [{ state := .ANALYZING
                 action := "Completed situation assessment"
                 details := [("severity", sev)] }]
            fsm := .PLANNING }
  | _ => .error .attributeErr

/-- Embedding of PlanningState.run: read the severity (TypeError when the
value does not compare with ints), append the generated response goals,
append one trace entry, and move to RESPONDING. -/
def planning_run (s : AgentState) : Except RuntimeErr AgentState :=
  match s.current_event with
  | some (.obj fields) =>
      match eventSeverity fields with
      | .error e => .error e
      | .ok severity =>
          let response_goals := generate_response_goals severity s.goals.length
          .ok { s with
                goals := s.goals ++ response_goals
                fsm_trace := s.fsm_trace ++
                  [{ state := .PLANNING
                     action := "Response plan created"
                     details := [("goals_count",
                       .num (response_goals.length : Int))] }]
                fsm := .RESPONDING }
  | _ => .error .attributeErr

/-- Embedding of RespondingState.run: complete every pending goal (the
sorted work list drives execution order; its length is recorded in the
trace entry), and move to MONITORING. -/
def responding_run (s : AgentState) : Except RuntimeErr AgentState :=
  .ok { s with
        goals := respondingUpdate s.goals
        fsm_trace := s.fsm_trace ++
          [{ state := .RESPONDING
             action := "Response actions executed"
             details := [("goals_completed",
               .num ((respondingOrder s.goals).length : Int))] }]
        fsm := .MONITORING }

/-- Embedding of MonitoringState.run: compute the completed and total goal
counts over the entire goal history; the success-rate expression divides by
the total count, raising ZeroDivisionError when it is zero; otherwise
append one trace entry and move to COMPLETED. -/
def monitoring_run (s : AgentState) : Except RuntimeErr AgentState :=
  let total_goals := s.goals.length
  let completed_goals :=
    (s.goals.filter (fun g => g.status == "completed")).length
  if total_goals = 0 then .error .zeroDivisionErr
  else
    .ok { s with
          fsm_trace := s.fsm_trace ++
            [{ state := .MONITORING
               action := "Recovery monitoring completed"
               details := [("goals_completed", .num (completed_goals : Int)),
                 ("total_goals", .num (total_goals : Int))] }]
          fsm := .COMPLETED }

/-- Embedding of CompletedState.run: append one trace entry carrying the
event id, clear the current event, and return to IDLE.  A missing current
event would raise an uncaught AttributeError at the event.get call. -/
def completed_run (s : AgentState) : Except RuntimeErr AgentState :=
  match s.current_event with
  | some (.obj fields) =>
      .ok { s with
            fsm_trace := s.fsm_trace ++
              [{ state := .COMPLETED
                 action := "Response cycle completed"
                 details := [("event_id", jsonGetD fields "event_id" .null)] }]
            current_event := none
            fsm := .IDLE }
  | _ => .error .attributeErr

/-- One visit of the FSM: dispatch on the current state name as the
FSMBehaviour transition table does.  The input is consumed only by IDLE;
every other state ignores it. -/
def fsm_step (s : AgentState) (input : IdleInput) :
    Except RuntimeErr AgentState :=
  match s.fsm with
  | .IDLE => idle_run s input
  | .ANALYZING => analyzing_run s
  | .PLANNING => planning_run s
  | .RESPONDING => responding_run s
  | .MONITORING => monitoring_run s
  | .COMPLETED => completed_run s

/-- Agent state right after ResponseAgent.setup. -/
def initialAgentState : AgentState :=
  { fsm := .IDLE, current_event := none, goals := [], fsm_trace := [] }

/-- Run of finitely many FSM visits, stopping at the first uncaught
exception. -/
def runSteps : AgentState → List IdleInput → Except RuntimeErr AgentState
  | s, [] => .ok s
  | s, i :: rest =>
      match fsm_step s i with
      | .error e => .error e
      | .ok s2 => runSteps s2 rest

/-- States of the response agent reachable from the initial state through
successful FSM visits. -/
inductive ReachableState : AgentState → Prop where
  | init : ReachableState initialAgentState
  | next (s s2 : AgentState) (i : IdleInput) :
      ReachableState s → fsm_step s i = .ok s2 → ReachableState s2

/-- Invariant maintained by every successful FSM visit: away from IDLE the
current event is a stored JSON object, and from PLANNING onwards the goal
list is nonempty (ANALYZING has appended the assessment goal and goals are
never removed). -/
def StateInv (s : AgentState) : Prop :=
  (s.fsm ≠ .IDLE → ∃ fields, s.current_event = some (Json.obj fields)) ∧
  ((s.fsm = .PLANNING ∨ s.fsm = .RESPONDING ∨ s.fsm = .MONITORING ∨
      s.fsm = .COMPLETED) → 0 < s.goals.length)

/-- Goals of a given priority, in their original order. -/
def prFilter (p : Int) (l : List Goal) : List Goal :=
  l.filter (fun g => g.priority == p)

/-- Extraction of the successful state of a step, used to name concrete
intermediate states of a run. -/
def exceptOr (x : Except RuntimeErr AgentState) (d : AgentState) :
    AgentState :=
  match x with
  | .ok s => s
  | .error _ => d

/-- Concrete severity-3 disaster alert payload. -/
def witAlert : Json :=
  .obj [("event_id", .str "EVENT-0001"), ("severity", .num 3)]

/-- State after the IDLE visit that receives the concrete alert. -/
def witState1 : AgentState :=
  exceptOr (fsm_step initialAgentState (.message (some witAlert)))
    initialAgentState

/-- State after the subsequent ANALYZING visit. -/
def witState2 : AgentState := exceptOr (fsm_step witState1 .timeout) witState1

/-- State after the subsequent PLANNING visit. -/
def witState3 : AgentState := exceptOr (fsm_step witState2 .timeout) witState2

/-- State after the subsequent RESPONDING visit, about to run MONITORING. -/
def witState4 : AgentState := exceptOr (fsm_step witState3 .timeout) witState3

theorem ofDigits_decDigitsAux (fuel n : Nat) (h : n ≤ fuel) :
    Nat.ofDigits 10 (decDigitsAux fuel n) = n := by
  induction fuel generalizing n with
  | zero =>
    interval_cases n
    simp [decDigitsAux, Nat.ofDigits]
  | succ fuel ih =>
    match n with
    | 0 => simp [decDigitsAux, Nat.ofDigits]
    | n + 1 =>
      have hdiv : (n + 1) / 10 ≤ fuel := by
        have := Nat.div_lt_self (Nat.succ_pos n) (by norm_num : 1 < 10)
        omega
      simp only [decDigitsAux, Nat.ofDigits_cons, ih _ hdiv]
      omega

theorem ofDigits_decDigits (n : Nat) : Nat.ofDigits 10 (decDigits n) = n :=
  ofDigits_decDigitsAux n n (Nat.le_refl n)

theorem ofDigits_replicate_zero (k : Nat) :
    Nat.ofDigits 10 (List.replicate k 0) = 0 := by
  induction k with
  | zero => simp [Nat.ofDigits]
  | succ k ih => simp [List.replicate_succ, Nat.ofDigits_cons, ih]

theorem ofDigits_padDigitsLE (w n : Nat) :
    Nat.ofDigits 10 (padDigitsLE w n) = n := by
  simp [padDigitsLE, Nat.ofDigits_append, ofDigits_decDigits,
    ofDigits_replicate_zero]

theorem padDigitsLE_injective (w : Nat) : Function.Injective (padDigitsLE w) := by
  intro a b h
  have ha := ofDigits_padDigitsLE w a
  have hb := ofDigits_padDigitsLE w b
  rw [h] at ha
  exact ha.symm.trans hb

theorem decDigitsAux_lt_ten (fuel n : Nat) :
    ∀ d ∈ decDigitsAux fuel n, d < 10 := by
  induction fuel generalizing n with
  | zero => simp [decDigitsAux]
  | succ fuel ih =>
    match n with
    | 0 => simp [decDigitsAux]
    | n + 1 =>
      intro d hd
      simp only [decDigitsAux, List.mem_cons] at hd
      rcases hd with h | h
      · subst h; exact Nat.mod_lt _ (by norm_num)
      · exact ih _ d h

theorem padDigitsLE_lt_ten (w n : Nat) : ∀ d ∈ padDigitsLE w n, d < 10 := by
  intro d hd
  simp only [padDigitsLE, List.mem_append] at hd
  rcases hd with h | h
  · exact decDigitsAux_lt_ten n n d h
  · have := List.eq_of_mem_replicate h
    omega

theorem digitChar_injOn (a b : Nat) (ha : a < 10) (hb : b < 10)
    (h : Nat.digitChar a = Nat.digitChar b) : a = b := by
  interval_cases a <;> interval_cases b <;>
    first
    | rfl
    | exact absurd h (by decide)

theorem map_digitChar_inj :
    ∀ l1 l2 : List Nat, (∀ d ∈ l1, d < 10) → (∀ d ∈ l2, d < 10) →
      l1.map Nat.digitChar = l2.map Nat.digitChar → l1 = l2 := by
  intro l1
  induction l1 with
  | nil =>
    intro l2 _ _ h
    cases l2 with
    | nil => rfl
    | cons b t => simp at h
  | cons a t ih =>
    intro l2 h1 h2 h
    cases l2 with
    | nil => simp at h
    | cons b t2 =>
      simp only [List.map_cons, List.cons.injEq] at h
      have hab : a = b :=
        digitChar_injOn a b (h1 a (List.mem_cons_self a t))
          (h2 b (List.mem_cons_self b t2)) h.1
      have ht : t = t2 :=
        ih t2 (fun d hd => h1 d (List.mem_cons_of_mem a hd))
          (fun d hd => h2 d (List.mem_cons_of_mem b hd)) h.2
      rw [hab, ht]

theorem decimalPad_injective (w : Nat) : Function.Injective (decimalPad w) := by
  intro a b h
  have hdata : (((padDigitsLE w a).reverse).map Nat.digitChar) =
      (((padDigitsLE w b).reverse).map Nat.digitChar) :=
    congrArg String.data h
  have hrev : (padDigitsLE w a).reverse = (padDigitsLE w b).reverse :=
    map_digitChar_inj _ _
      (fun d hd => padDigitsLE_lt_ten w a d (List.mem_reverse.mp hd))
      (fun d hd => padDigitsLE_lt_ten w b d (List.mem_reverse.mp hd)) hdata
  exact padDigitsLE_injective w (List.reverse_injective hrev)

theorem string_append_left_cancel (p s t : String) (h : p ++ s = p ++ t) :
    s = t := by
  cases p with
  | mk pd =>
    cases s with
    | mk sd =>
      cases t with
      | mk td =>
        have : pd ++ sd = pd ++ td := congrArg String.data h
        have := List.append_cancel_left this
        rw [this]

theorem eventIdString_injective : Function.Injective eventIdString := by
  intro a b h
  exact decimalPad_injective 4 (string_append_left_cancel "EVENT-" _ _ h)

theorem stateInv_init : StateInv initialAgentState := by
  constructor
  · intro h
    simp [initialAgentState] at h
  · intro h
    simp [initialAgentState] at h

theorem stateInv_step (s s2 : AgentState) (i : IdleInput)
    (hInv : StateInv s) (h : fsm_step s i = .ok s2) : StateInv s2 := by
  obtain ⟨hEvent, hGoals⟩ := hInv
  cases hfsm : s.fsm with
  | IDLE =>
    simp only [fsm_step, hfsm] at h
    cases i with
    | timeout =>
      simp only [idle_run, Except.ok.injEq] at h
      subst h
      constructor
      · intro hne; simp at hne
      · intro hor; simp at hor
    | message parsed =>
      cases parsed with
      | none =>
        simp only [idle_run, Except.ok.injEq] at h
        subst h
        constructor
        · intro hne; simp at hne
        · intro hor; simp at hor
      | some j =>
        cases j with
        | obj fields =>
          simp only [idle_run, Except.ok.injEq] at h
          subst h
          constructor
          · intro _; exact ⟨fields, rfl⟩
          · intro hor; simp at hor
        | null => simp [idle_run] at h
        | bool b => simp [idle_run] at h
        | num n => simp [idle_run] at h
        | str t => simp [idle_run] at h
        | arr elems => simp [idle_run] at h
  | ANALYZING =>
    obtain ⟨fields, hce⟩ := hEvent (by rw [hfsm]; intro hne; cases hne)
    simp only [fsm_step, hfsm, analyzing_run, hce, Except.ok.injEq] at h
    subst h
    constructor
    · intro _; exact ⟨fields, rfl⟩
    · intro _; simp
  | PLANNING =>
    obtain ⟨fields, hce⟩ := hEvent (by rw [hfsm]; intro hne; cases hne)
    have hpos : 0 < s.goals.length := hGoals (by rw [hfsm]; left; rfl)
    cases hsev : eventSeverity fields with
    | error e =>
      simp only [fsm_step, hfsm, planning_run, hce, hsev] at h
      exact Except.noConfusion h
    | ok severity =>
      simp only [fsm_step, hfsm, planning_run, hce, hsev,
        Except.ok.injEq] at h
      subst h
      constructor
      · intro _; exact ⟨fields, rfl⟩
      · intro _; simp; omega
  | RESPONDING =>
    obtain ⟨fields, hce⟩ := hEvent (by rw [hfsm]; intro hne; cases hne)
    have hpos : 0 < s.goals.length := hGoals (by rw [hfsm]; right; left; rfl)
    simp only [fsm_step, hfsm, responding_run, Except.ok.injEq] at h
    subst h
    constructor
    · intro _; exact ⟨fields, hce⟩
    · intro _; simpa [respondingUpdate] using hpos
  | MONITORING =>
    obtain ⟨fields, hce⟩ := hEvent (by rw [hfsm]; intro hne; cases hne)
    have hpos : 0 < s.goals.length := hGoals (by rw [hfsm]; right; right; left; rfl)
    simp only [fsm_step, hfsm, monitoring_run] at h
    rw [if_neg (by omega : ¬ s.goals.length = 0)] at h
    simp only [Except.ok.injEq] at h
    subst h
    constructor
    · intro _; exact ⟨fields, hce⟩
    · intro _; exact hpos
  | COMPLETED =>
    obtain ⟨fields, hce⟩ := hEvent (by rw [hfsm]; intro hne; cases hne)
    simp only [fsm_step, hfsm, completed_run, hce, Except.ok.injEq] at h
    subst h
    constructor
    · intro hne; simp at hne
    · intro hor; simp at hor

theorem reachable_stateInv (s : AgentState) (h : ReachableState s) :
    StateInv s := by
  induction h with
  | init => exact stateInv_init
  | next s s2 i _ hstep ih => exact stateInv_step s s2 i ih hstep

theorem mem_insertGoal (g x : Goal) (l : List Goal) :
    x ∈ insertGoal g l ↔ x = g ∨ x ∈ l := by
  induction l with
  | nil => simp [insertGoal]
  | cons a t ih =>
    by_cases hc : g.priority < a.priority
    · simp only [insertGoal, if_pos hc, List.mem_cons, ih]
      tauto
    · simp only [insertGoal, if_neg hc, List.mem_cons]

theorem insertGoal_perm (g : Goal) (l : List Goal) :
    (insertGoal g l).Perm (g :: l) := by
  induction l with
  | nil => exact List.Perm.refl _
  | cons a t ih =>
    by_cases hc : g.priority < a.priority
    · rw [insertGoal, if_pos hc]
      exact (ih.cons a).trans (List.Perm.swap g a t)
    · rw [insertGoal, if_neg hc]

theorem sortGoalsDesc_perm (l : List Goal) : (sortGoalsDesc l).Perm l := by
  induction l with
  | nil => exact List.Perm.refl _
  | cons a t ih => exact (insertGoal_perm a (sortGoalsDesc t)).trans (ih.cons a)

theorem insertGoal_pairwise (g : Goal) (l : List Goal)
    (h : List.Pairwise (fun a b => b.priority ≤ a.priority) l) :
    List.Pairwise (fun a b => b.priority ≤ a.priority) (insertGoal g l) := by
  induction l with
  | nil => simp [insertGoal]
  | cons a t ih =>
    rw [List.pairwise_cons] at h
    by_cases hc : g.priority < a.priority
    · rw [insertGoal, if_pos hc]
      rw [List.pairwise_cons]
      constructor
      · intro x hx
        rcases (mem_insertGoal g x t).mp hx with hx | hx
        · rw [hx]; exact le_of_lt hc
        · exact h.1 x hx
      · exact ih h.2
    · rw [insertGoal, if_neg hc]
      rw [List.pairwise_cons]
      constructor
      · intro x hx
        rcases List.mem_cons.mp hx with hx | hx
        · rw [hx]; omega
        · have := h.1 x hx
          omega
      · exact List.pairwise_cons.mpr h

theorem sortGoalsDesc_pairwise (l : List Goal) :
    List.Pairwise (fun a b => b.priority ≤ a.priority) (sortGoalsDesc l) := by
  induction l with
  | nil => simp [sortGoalsDesc]
  | cons a t ih => exact insertGoal_pairwise a (sortGoalsDesc t) ih

theorem mem_prFilter (p : Int) (x : Goal) (l : List Goal)
    (h : x ∈ prFilter p l) : x.priority = p := by
  rw [prFilter, List.mem_filter] at h
  exact beq_iff_eq.mp h.2

theorem prFilter_cons (p : Int) (g : Goal) (t : List Goal) :
    prFilter p (g :: t) =
      if g.priority = p then g :: prFilter p t else prFilter p t := by
  by_cases hc : g.priority = p <;>
    simp [prFilter, List.filter_cons, beq_iff_eq, hc]

theorem insertGoal_all_le (g : Goal) (l : List Goal)
    (h : ∀ x ∈ l, ¬ g.priority < x.priority) : insertGoal g l = g :: l := by
  cases l with
  | nil => rfl
  | cons a t => rw [insertGoal, if_neg (h a (List.mem_cons_self a t))]

theorem insertGoal_append_gt (g : Goal) (A B : List Goal)
    (h : ∀ x ∈ A, g.priority < x.priority) :
    insertGoal g (A ++ B) = A ++ insertGoal g B := by
  induction A with
  | nil => rfl
  | cons a t ih =>
    rw [List.cons_append, insertGoal, if_pos (h a (List.mem_cons_self a t)),
      ih (fun x hx => h x (List.mem_cons_of_mem a hx)), List.cons_append]

theorem sortGoalsDesc_eq_filters (l : List Goal)
    (h : ∀ g ∈ l, 1 ≤ g.priority ∧ g.priority ≤ 5) :
    sortGoalsDesc l =
      prFilter 5 l ++ prFilter 4 l ++ prFilter 3 l ++ prFilter 2 l ++
        prFilter 1 l := by
  induction l with
  | nil => rfl
  | cons g t ih =>
    have ht : ∀ x ∈ t, 1 ≤ x.priority ∧ x.priority ≤ 5 :=
      fun x hx => h x (List.mem_cons_of_mem g hx)
    have hg := h g (List.mem_cons_self g t)
    have hstep : sortGoalsDesc (g :: t) =
        insertGoal g (prFilter 5 t ++ prFilter 4 t ++ prFilter 3 t ++
          prFilter 2 t ++ prFilter 1 t) := by
      rw [sortGoalsDesc, ih ht]
    have hcase : g.priority = 1 ∨ g.priority = 2 ∨ g.priority = 3 ∨
        g.priority = 4 ∨ g.priority = 5 := by omega
    have g5 : ∀ x ∈ prFilter 5 t, x.priority = 5 := fun x hx => mem_prFilter 5 x t hx
    have g4 : ∀ x ∈ prFilter 4 t, x.priority = 4 := fun x hx => mem_prFilter 4 x t hx
    have g3 : ∀ x ∈ prFilter 3 t, x.priority = 3 := fun x hx => mem_prFilter 3 x t hx
    have g2 : ∀ x ∈ prFilter 2 t, x.priority = 2 := fun x hx => mem_prFilter 2 x t hx
    have g1 : ∀ x ∈ prFilter 1 t, x.priority = 1 := fun x hx => mem_prFilter 1 x t hx
    rw [hstep]
    simp only [List.append_assoc]
    rcases hcase with hp | hp | hp | hp | hp
    · rw [insertGoal_append_gt g (prFilter 5 t) _
          (fun x hx => by rw [hp, g5 x hx]; norm_num),
        insertGoal_append_gt g (prFilter 4 t) _
          (fun x hx => by rw [hp, g4 x hx]; norm_num),
        insertGoal_append_gt g (prFilter 3 t) _
          (fun x hx => by rw [hp, g3 x hx]; norm_num),
        insertGoal_append_gt g (prFilter 2 t) _
          (fun x hx => by rw [hp, g2 x hx]; norm_num),
        insertGoal_all_le g (prFilter 1 t)
          (fun x hx => by rw [hp, g1 x hx]; norm_num)]
      simp [prFilter_cons, hp, List.append_assoc]
    · rw [insertGoal_append_gt g (prFilter 5 t) _
          (fun x hx => by rw [hp, g5 x hx]; norm_num),
        insertGoal_append_gt g (prFilter 4 t) _
          (fun x hx => by rw [hp, g4 x hx]; norm_num),
        insertGoal_append_gt g (prFilter 3 t) _
          (fun x hx => by rw [hp, g3 x hx]; norm_num),
        insertGoal_all_le g (prFilter 2 t ++ prFilter 1 t)
          (fun x hx => by
            rcases List.mem_append.mp hx with hx | hx
            · rw [hp, g2 x hx]; norm_num
            · rw [hp, g1 x hx]; norm_num)]
      simp [prFilter_cons, hp, List.append_assoc]
    · rw [insertGoal_append_gt g (prFilter 5 t) _
          (fun x hx => by rw [hp, g5 x hx]; norm_num),
        insertGoal_append_gt g (prFilter 4 t) _
          (fun x hx => by rw [hp, g4 x hx]; norm_num),
        insertGoal_all_le g (prFilter 3 t ++ (prFilter 2 t ++ prFilter 1 t))
          (fun x hx => by
            rcases List.mem_append.mp hx with hx | hx
            · rw [hp, g3 x hx]; norm_num
            rcases List.mem_append.mp hx with hx | hx
            · rw [hp, g2 x hx]; norm_num
            · rw [hp, g1 x hx]; norm_num)]
      simp [prFilter_cons, hp, List.append_assoc]
    · rw [insertGoal_append_gt g (prFilter 5 t) _
          (fun x hx => by rw [hp, g5 x hx]; norm_num),
        insertGoal_all_le g
          (prFilter 4 t ++ (prFilter 3 t ++ (prFilter 2 t ++ prFilter 1 t)))
          (fun x hx => by
            rcases List.mem_append.mp hx with hx | hx
            · rw [hp, g4 x hx]; norm_num
            rcases List.mem_append.mp hx with hx | hx
            · rw [hp, g3 x hx]; norm_num
            rcases List.mem_append.mp hx with hx | hx
            · rw [hp, g2 x hx]; norm_num
            · rw [hp, g1 x hx]; norm_num)]
      simp [prFilter_cons, hp, List.append_assoc]
    · rw [insertGoal_all_le g
          (prFilter 5 t ++ (prFilter 4 t ++ (prFilter 3 t ++ (prFilter 2 t ++
            prFilter 1 t))))
          (fun x hx => by
            rcases List.mem_append.mp hx with hx | hx
            · rw [hp, g5 x hx]; norm_num
            rcases List.mem_append.mp hx with hx | hx
            · rw [hp, g4 x hx]; norm_num
            rcases List.mem_append.mp hx with hx | hx
            · rw [hp, g3 x hx]; norm_num
            rcases List.mem_append.mp hx with hx | hx
            · rw [hp, g2 x hx]; norm_num
            · rw [hp, g1 x hx]; norm_num)]
      simp [prFilter_cons, hp, List.append_assoc]

/-! Part 4: claim theorems. -/

/-- C2: after every update_conditions call the clamped fields lie in their
declared physical ranges (temperature in -10..45, humidity 0..100, wind
0..150, air quality 0..500, water level 0..20), for every starting state
and every perturbation, hence for every sequence of updates from the
initial conditions regardless of the random draws. -/
theorem C2_update_conditions_clamped :
    (∀ (c : EnvironmentalCondition) (p : Perturbation),
      conditionsInRange (update_conditions c p)) ∧
    (∀ (ps : List Perturbation) (p : Perturbation),
      conditionsInRange
        (List.foldl update_conditions initialConditions (ps ++ [p]))) := by
  have hmain : ∀ (c : EnvironmentalCondition) (p : Perturbation),
      conditionsInRange (update_conditions c p) := by
    intro c p
    refine ⟨le_max_left _ _, max_le (by norm_num) (min_le_left _ _),
      le_max_left _ _, max_le (by norm_num) (min_le_left _ _),
      le_max_left _ _, max_le (by norm_num) (min_le_left _ _),
      le_max_left _ _, max_le (by norm_num) (min_le_left _ _),
      le_max_left _ _, max_le (by norm_num) (min_le_left _ _)⟩
  refine ⟨hmain, ?_⟩
  intro ps p
  rw [List.foldl_append]
  exact hmain _ p

/-- C9: earthquake severity is a pure function of magnitude with half-open
bands, the boundary magnitude falling in the upper band: below 4.5 Minimal,
4.5 to below 5.5 Low, 5.5 to below 6.5 Moderate, 6.5 to below 7.5 High, and
from 7.5 Critical; including the sample points 4.4, 5.4, 6.4, 7.4, 8 and
the exact boundaries 4.5, 5.5, 6.5, 7.5. -/
theorem C9_earthquake_severity_bands :
    (∀ m : ℚ,
      (determine_earthquake_severity m = .MINIMAL ↔ m < 4.5) ∧
      (determine_earthquake_severity m = .LOW ↔ 4.5 ≤ m ∧ m < 5.5) ∧
      (determine_earthquake_severity m = .MODERATE ↔ 5.5 ≤ m ∧ m < 6.5) ∧
      (determine_earthquake_severity m = .HIGH ↔ 6.5 ≤ m ∧ m < 7.5) ∧
      (determine_earthquake_severity m = .CRITICAL ↔ 7.5 ≤ m)) ∧
    determine_earthquake_severity 4.4 = .MINIMAL ∧
    determine_earthquake_severity 5.4 = .LOW ∧
    determine_earthquake_severity 6.4 = .MODERATE ∧
    determine_earthquake_severity 7.4 = .HIGH ∧
    determine_earthquake_severity 8 = .CRITICAL ∧
    determine_earthquake_severity 4.5 = .LOW ∧
    determine_earthquake_severity 5.5 = .MODERATE ∧
    determine_earthquake_severity 6.5 = .HIGH ∧
    determine_earthquake_severity 7.5 = .CRITICAL := by
  have hmain : ∀ m : ℚ,
      (determine_earthquake_severity m = .MINIMAL ↔ m < 4.5) ∧
      (determine_earthquake_severity m = .LOW ↔ 4.5 ≤ m ∧ m < 5.5) ∧
      (determine_earthquake_severity m = .MODERATE ↔ 5.5 ≤ m ∧ m < 6.5) ∧
      (determine_earthquake_severity m = .HIGH ↔ 6.5 ≤ m ∧ m < 7.5) ∧
      (determine_earthquake_severity m = .CRITICAL ↔ 7.5 ≤ m) := by
    intro m
    unfold determine_earthquake_severity
    split_ifs with h1 h2 h3 h4 <;>
      refine ⟨?_, ?_, ?_, ?_, ?_⟩ <;> constructor <;> intro hh <;>
        first
        | rfl
        | linarith
        | exact ⟨by linarith, by linarith⟩
        | simp at hh
  refine ⟨hmain, ?_, ?_, ?_, ?_, ?_, ?_, ?_, ?_, ?_⟩
  · exact (hmain 4.4).1.mpr (by norm_num)
  · exact (hmain 5.4).2.1.mpr (by norm_num)
  · exact (hmain 6.4).2.2.1.mpr (by norm_num)
  · exact (hmain 7.4).2.2.2.1.mpr (by norm_num)
  · exact (hmain 8).2.2.2.2.mpr (by norm_num)
  · exact (hmain 4.5).2.1.mpr (by norm_num)
  · exact (hmain 5.5).2.2.1.mpr (by norm_num)
  · exact (hmain 6.5).2.2.2.1.mpr (by norm_num)
  · exact (hmain 7.5).2.2.2.2.mpr (by norm_num)

/-- Witness for C9 at the concrete magnitude 4.5. -/
theorem C9_earthquake_severity_bands_witness :
    determine_earthquake_severity 4.5 = .LOW :=
  (C9_earthquake_severity_bands.1 4.5).2.1.mpr (by norm_num)

theorem mkPendingGoals_proj (c : Nat) (l : List (RescueGoal × Int)) :
    (mkPendingGoals c l).map (fun g => (g.goal_type, g.priority)) = l := by
  induction l generalizing c with
  | nil => rfl
  | cons x rest ih =>
    obtain ⟨gt, pr⟩ := x
    simp [mkPendingGoals, ih]

theorem mkPendingGoals_status (c : Nat) (l : List (RescueGoal × Int)) :
    ∀ g ∈ mkPendingGoals c l, g.status = "pending" := by
  induction l generalizing c with
  | nil => simp [mkPendingGoals]
  | cons x rest ih =>
    obtain ⟨gt, pr⟩ := x
    intro g hg
    rcases List.mem_cons.mp hg with hg | hg
    · rw [hg]
    · exact ih (c + 1) g hg

/-- C1: the PLANNING goal set is a pure function of severity:
DEPLOY_RESOURCES at priority 5 and EVACUATE_CIVILIANS at priority 5
unconditionally, PROVIDE_MEDICAL_AID at priority 4 exactly when severity is
at least 3, RESTORE_INFRASTRUCTURE at priority 3 exactly when severity is
at least 4, MONITOR_RECOVERY at priority 2 unconditionally, all created
with status pending; severity 5 yields exactly those five goals and
severity 1 yields exactly the three unconditional ones. -/
theorem C1_planning_goal_set :
    (∀ (severity : Int) (counter : Nat),
      ((generate_response_goals severity counter).map
          (fun g => (g.goal_type, g.priority)) =
        [(RescueGoal.DEPLOY_RESOURCES, 5), (RescueGoal.EVACUATE_CIVILIANS, 5)]
          ++ (if severity ≥ 3 then [(RescueGoal.PROVIDE_MEDICAL_AID, 4)] else [])
          ++ (if severity ≥ 4 then [(RescueGoal.RESTORE_INFRASTRUCTURE, 3)] else [])
          ++ [(RescueGoal.MONITOR_RECOVERY, 2)]) ∧
      ∀ g ∈ generate_response_goals severity counter, g.status = "pending") ∧
    ((generate_response_goals 5 0).map (fun g => (g.goal_type, g.priority)) =
      [(RescueGoal.DEPLOY_RESOURCES, 5), (RescueGoal.EVACUATE_CIVILIANS, 5),
       (RescueGoal.PROVIDE_MEDICAL_AID, 4),
       (RescueGoal.RESTORE_INFRASTRUCTURE, 3),
       (RescueGoal.MONITOR_RECOVERY, 2)]) ∧
    ((generate_response_goals 1 0).map (fun g => (g.goal_type, g.priority)) =
      [(RescueGoal.DEPLOY_RESOURCES, 5), (RescueGoal.EVACUATE_CIVILIANS, 5),
       (RescueGoal.MONITOR_RECOVERY, 2)]) := by
  refine ⟨fun severity counter => ⟨?_, ?_⟩, ?_, ?_⟩
  · rw [generate_response_goals, mkPendingGoals_proj]
  · exact mkPendingGoals_status counter _
  · rfl
  · rfl

/-- Witness for C1 at severity 3 and counter 0. -/
theorem C1_planning_goal_set_witness :
    (generate_response_goals 3 0).map (fun g => (g.goal_type, g.priority)) =
      [(RescueGoal.DEPLOY_RESOURCES, 5), (RescueGoal.EVACUATE_CIVILIANS, 5),
       (RescueGoal.PROVIDE_MEDICAL_AID, 4),
       (RescueGoal.MONITOR_RECOVERY, 2)] := by
  rw [(C1_planning_goal_set.1 3 0).1]
  rfl

/-- C3: a resource request with non-negative requested amounts is granted
min of requested and held per resource type, the held pool is decremented
by exactly the granted amounts, and the reply carries the granted amounts
with the resources_allocated status; held 5 against requested 8 grants 5
leaving 0, and held 5 against requested 3 grants 3 leaving 2. -/
theorem C3_resource_grant :
    (∀ (held requested : Resources) (eid an : String),
      0 ≤ requested.rescue_teams → 0 ≤ requested.medical_units →
      0 ≤ requested.equipment →
      (handle_resource_request held requested eid an).2.resources_available =
        { rescue_teams := min requested.rescue_teams held.rescue_teams
          medical_units := min requested.medical_units held.medical_units
          equipment := min requested.equipment held.equipment } ∧
      (handle_resource_request held requested eid an).1 =
        { rescue_teams :=
            held.rescue_teams - min requested.rescue_teams held.rescue_teams
          medical_units :=
            held.medical_units - min requested.medical_units held.medical_units
          equipment := held.equipment - min requested.equipment held.equipment } ∧
      (handle_resource_request held requested eid an).2.status =
        "resources_allocated") ∧
    ((handle_resource_request ⟨5, 0, 0⟩ ⟨8, 0, 0⟩ "EVENT-1001"
        "RescueAgent1").2.resources_available.rescue_teams = 5 ∧
      (handle_resource_request ⟨5, 0, 0⟩ ⟨8, 0, 0⟩ "EVENT-1001"
        "RescueAgent1").1.rescue_teams = 0) ∧
    ((handle_resource_request ⟨5, 0, 0⟩ ⟨3, 0, 0⟩ "EVENT-1001"
        "RescueAgent1").2.resources_available.rescue_teams = 3 ∧
      (handle_resource_request ⟨5, 0, 0⟩ ⟨3, 0, 0⟩ "EVENT-1001"
        "RescueAgent1").1.rescue_teams = 2) := by
  refine ⟨fun held requested eid an h1 h2 h3 => ⟨rfl, rfl, rfl⟩, ⟨?_, ?_⟩, ⟨?_, ?_⟩⟩
  · rfl
  · rfl
  · rfl
  · rfl

/-- Witness for C3 at held 5 and requested 8 rescue teams. -/
theorem C3_resource_grant_witness :
    (handle_resource_request ⟨5, 0, 0⟩ ⟨8, 0, 0⟩ "EVENT-1001"
        "RescueAgent1").2.resources_available =
      { rescue_teams := min (8 : Int) 5
        medical_units := min (0 : Int) 0
        equipment := min (0 : Int) 0 } ∧
    (handle_resource_request ⟨5, 0, 0⟩ ⟨8, 0, 0⟩ "EVENT-1001"
        "RescueAgent1").1 =
      { rescue_teams := (5 : Int) - min (8 : Int) 5
        medical_units := (0 : Int) - min (0 : Int) 0
        equipment := (0 : Int) - min (0 : Int) 0 } ∧
    (handle_resource_request ⟨5, 0, 0⟩ ⟨8, 0, 0⟩ "EVENT-1001"
        "RescueAgent1").2.status = "resources_allocated" :=
  C3_resource_grant.1 ⟨5, 0, 0⟩ ⟨8, 0, 0⟩ "EVENT-1001" "RescueAgent1"
    (by norm_num) (by norm_num) (by norm_num)

/-- C4: for every disaster alert the coordinator sends exactly one
resource_request message per known responder, each requesting rescue_teams
twice severity, medical_units once severity and equipment three times
severity, all tagged with the conversation id equal to the event id of the
alert; with the two configured responders exactly two messages are sent. -/
theorem C4_resource_request_broadcast :
    (∀ (severity : Int) (eid dt : String) (agents : List String),
      (request_rescue_resources severity eid dt agents).length =
        agents.length ∧
      (∀ m ∈ request_rescue_resources severity eid dt agents,
        m.conversation_id = eid ∧
        m.resources_requested =
          { rescue_teams := severity * 2
            medical_units := severity * 1
            equipment := severity * 3 }) ∧
      (∀ m1 ∈ request_rescue_resources severity eid dt agents,
        ∀ m2 ∈ request_rescue_resources severity eid dt agents,
          m1.conversation_id = m2.conversation_id)) ∧
    (∀ (severity : Int) (eid dt : String),
      (request_rescue_resources severity eid dt lab4_rescue_agents).length =
        2) := by
  have hmem : ∀ (severity : Int) (eid dt : String) (agents : List String),
      ∀ m ∈ request_rescue_resources severity eid dt agents,
        m.conversation_id = eid ∧
        m.resources_requested =
          { rescue_teams := severity * 2
            medical_units := severity * 1
            equipment := severity * 3 } := by
    intro severity eid dt agents m hm
    rw [request_rescue_resources, List.mem_map] at hm
    obtain ⟨a, _, hma⟩ := hm
    rw [← hma]
    exact ⟨rfl, rfl⟩
  refine ⟨fun severity eid dt agents => ⟨?_, hmem severity eid dt agents, ?_⟩,
    fun severity eid dt => ?_⟩
  · rw [request_rescue_resources, List.length_map]
  · intro m1 h1 m2 h2
    rw [(hmem severity eid dt agents m1 h1).1,
      (hmem severity eid dt agents m2 h2).1]
  · rw [request_rescue_resources, List.length_map]
    rfl

/-- Witness for C4 at severity 3 with the configured responder list. -/
theorem C4_resource_request_broadcast_witness :
    (request_rescue_resources 3 "EVENT-1001" "Flood"
      lab4_rescue_agents).length = 2 :=
  C4_resource_request_broadcast.2 3 "EVENT-1001" "Flood"

theorem createEventsFrom_id_shape (c : Nat) (loc : String)
    (inputs : List (DisasterType × SeverityLevel × EventDraw)) :
    ∀ e ∈ createEventsFrom c loc inputs,
      ∃ k, c < k ∧ e.event_id = eventIdString k := by
  induction inputs generalizing c with
  | nil => simp [createEventsFrom]
  | cons x rest ih =>
    obtain ⟨dt, sev, d⟩ := x
    intro e he
    rcases List.mem_cons.mp he with he | he
    · exact ⟨c + 1, by omega, by rw [he]; rfl⟩
    · obtain ⟨k, hk, hid⟩ := ih (c + 1) e he
      exact ⟨k, by omega, hid⟩

/-- C8 counterexample: the lab4 coordination-protocol sensor derives the
event identifier from a random draw alone, so two generations with the
same draw produce distinct disaster events carrying the same event_id,
which is impossible under a monotonically increasing counter assignment. -/
theorem C8_event_id_counterexample :
    (lab4_generate_disaster 1234 "Flood" 2 "LOW").event_id =
      (lab4_generate_disaster 1234 "Fire" 5 "CRITICAL").event_id ∧
    lab4_generate_disaster 1234 "Flood" 2 "LOW" ≠
      lab4_generate_disaster 1234 "Fire" 5 "CRITICAL" := by
  constructor
  · rfl
  · intro h
    have hdt := congrArg Lab4DisasterMsg.disaster_type h
    exact absurd hdt (by decide)

/-- C8 amended: every DisasterEvent created by one environment-model
instance carries an identifier unique within that instance lifetime, since
ids are rendered injectively from a strictly increasing owned counter; this
holds for any starting counter and any sequence of creations. -/
theorem C8_event_id_unique (c : Nat) (loc : String)
    (inputs : List (DisasterType × SeverityLevel × EventDraw)) :
    List.Pairwise (fun a b => a.event_id ≠ b.event_id)
      (createEventsFrom c loc inputs) := by
  induction inputs generalizing c with
  | nil => simp [createEventsFrom]
  | cons x rest ih =>
    obtain ⟨dt, sev, d⟩ := x
    rw [createEventsFrom, List.pairwise_cons]
    constructor
    · intro e he heq
      obtain ⟨k, hk, hid⟩ := createEventsFrom_id_shape (c + 1) loc rest e he
      rw [hid] at heq
      have : c + 1 = k := eventIdString_injective heq
      omega
    · exact ih (c + 1)

/-- Witness for C8 on a concrete two-event creation sequence. -/
theorem C8_event_id_unique_witness :
    List.Pairwise (fun a b => a.event_id ≠ b.event_id)
      (createEventsFrom 0 "Disaster Monitoring Zone"
        [(DisasterType.EARTHQUAKE, SeverityLevel.HIGH, ⟨20, 3, 1000000⟩),
         (DisasterType.FLOOD, SeverityLevel.LOW, ⟨15, 0, 2000000⟩)]) :=
  C8_event_id_unique 0 "Disaster Monitoring Zone" _

theorem respondingUpdate_eq_map (goals : List Goal) :
    respondingUpdate goals =
      goals.map (fun g =>
        if g.status = "pending" then markCompleted g else g) := by
  rw [respondingUpdate]
  congr 1
  funext g
  by_cases hc : g.status = "pending" <;> simp [hc]

/-- C5: RESPONDING executes exactly the pending goals, in non-increasing
priority order with creation order preserved among equal priorities (the
execution order is the concatenation of the pending goals of priority 5
down to priority 1, each block in creation order), and every executed
goal ends with status completed while non-pending goals are untouched. -/
theorem C5_responding_execution (goals : List Goal)
    (h : ∀ g ∈ goals, 1 ≤ g.priority ∧ g.priority ≤ 5) :
    (respondingOrder goals =
      prFilter 5 (pendingOf goals) ++ prFilter 4 (pendingOf goals) ++
      prFilter 3 (pendingOf goals) ++ prFilter 2 (pendingOf goals) ++
      prFilter 1 (pendingOf goals)) ∧
    (respondingOrder goals).Perm (pendingOf goals) ∧
    List.Pairwise (fun a b => b.priority ≤ a.priority)
      (respondingOrder goals) ∧
    (∀ g ∈ respondingOrder goals, g.status = "pending") ∧
    respondingUpdate goals =
      goals.map (fun g =>
        if g.status = "pending" then markCompleted g else g) := by
  have hpend : ∀ g ∈ pendingOf goals, 1 ≤ g.priority ∧ g.priority ≤ 5 :=
    fun g hg => h g (List.mem_filter.mp hg).1
  refine ⟨sortGoalsDesc_eq_filters _ hpend, sortGoalsDesc_perm _,
    sortGoalsDesc_pairwise _, ?_, respondingUpdate_eq_map goals⟩
  intro g hg
  have hmem : g ∈ pendingOf goals :=
    ((sortGoalsDesc_perm (pendingOf goals)).mem_iff).mp hg
  exact beq_iff_eq.mp (List.mem_filter.mp hmem).2

/-- Witness for C5 on a concrete four-goal list. -/
theorem C5_responding_execution_witness :
    respondingOrder
        [⟨"GOAL-001", RescueGoal.ASSESS_SITUATION, 5, "completed"⟩,
         ⟨"GOAL-002", RescueGoal.DEPLOY_RESOURCES, 5, "pending"⟩,
         ⟨"GOAL-003", RescueGoal.EVACUATE_CIVILIANS, 5, "pending"⟩,
         ⟨"GOAL-004", RescueGoal.MONITOR_RECOVERY, 2, "pending"⟩] =
      prFilter 5 (pendingOf
        [⟨"GOAL-001", RescueGoal.ASSESS_SITUATION, 5, "completed"⟩,
         ⟨"GOAL-002", RescueGoal.DEPLOY_RESOURCES, 5, "pending"⟩,
         ⟨"GOAL-003", RescueGoal.EVACUATE_CIVILIANS, 5, "pending"⟩,
         ⟨"GOAL-004", RescueGoal.MONITOR_RECOVERY, 2, "pending"⟩]) ++
      prFilter 4 (pendingOf
        [⟨"GOAL-001", RescueGoal.ASSESS_SITUATION, 5, "completed"⟩,
         ⟨"GOAL-002", RescueGoal.DEPLOY_RESOURCES, 5, "pending"⟩,
         ⟨"GOAL-003", RescueGoal.EVACUATE_CIVILIANS, 5, "pending"⟩,
         ⟨"GOAL-004", RescueGoal.MONITOR_RECOVERY, 2, "pending"⟩]) ++
      prFilter 3 (pendingOf
        [⟨"GOAL-001", RescueGoal.ASSESS_SITUATION, 5, "completed"⟩,
         ⟨"GOAL-002", RescueGoal.DEPLOY_RESOURCES, 5, "pending"⟩,
         ⟨"GOAL-003", RescueGoal.EVACUATE_CIVILIANS, 5, "pending"⟩,
         ⟨"GOAL-004", RescueGoal.MONITOR_RECOVERY, 2, "pending"⟩]) ++
      prFilter 2 (pendingOf
        [⟨"GOAL-001", RescueGoal.ASSESS_SITUATION, 5, "completed"⟩,
         ⟨"GOAL-002", RescueGoal.DEPLOY_RESOURCES, 5, "pending"⟩,
         ⟨"GOAL-003", RescueGoal.EVACUATE_CIVILIANS, 5, "pending"⟩,
         ⟨"GOAL-004", RescueGoal.MONITOR_RECOVERY, 2, "pending"⟩]) ++
      prFilter 1 (pendingOf
        [⟨"GOAL-001", RescueGoal.ASSESS_SITUATION, 5, "completed"⟩,
         ⟨"GOAL-002", RescueGoal.DEPLOY_RESOURCES, 5, "pending"⟩,
         ⟨"GOAL-003", RescueGoal.EVACUATE_CIVILIANS, 5, "pending"⟩,
         ⟨"GOAL-004", RescueGoal.MONITOR_RECOVERY, 2, "pending"⟩]) :=
  (C5_responding_execution _ (by decide)).1

/-- C10: in every reachable run, whenever the machine is about to run the
MONITORING state the goal list length (the divisor of the success-rate
computation over the entire goal history) is at least 1, and the MONITORING
visit completes without raising, for any input. -/
theorem C10_monitoring_division_safe (s : AgentState)
    (hreach : ReachableState s) (hm : s.fsm = .MONITORING) :
    0 < s.goals.length ∧ ∀ i, ∃ s2, fsm_step s i = .ok s2 := by
  have hInv := reachable_stateInv s hreach
  have hpos : 0 < s.goals.length :=
    hInv.2 (by rw [hm]; right; right; left; rfl)
  refine ⟨hpos, fun i => ?_⟩
  simp only [fsm_step, hm, monitoring_run]
  rw [if_neg (by omega : ¬ s.goals.length = 0)]
  exact ⟨_, rfl⟩

/-- Witness for C10 at the concrete reachable MONITORING state produced by
processing one severity-3 alert from the initial state. -/
theorem C10_monitoring_division_safe_witness :
    0 < witState4.goals.length :=
  (C10_monitoring_division_safe witState4
    (ReachableState.next _ _ IdleInput.timeout
      (ReachableState.next _ _ IdleInput.timeout
        (ReachableState.next _ _ IdleInput.timeout
          (ReachableState.next _ _ (IdleInput.message (some witAlert))
            ReachableState.init rfl)
          rfl)
        rfl)
      rfl)
    rfl).1

/-- C7 counterexample: the message body consisting of the string 5 decodes
successfully to a non-object JSON value, and the IDLE visit then raises an
uncaught AttributeError instead of looping back to IDLE, so not every
malformed body is caught and discarded. -/
theorem C7_malformed_counterexample :
    fsm_step initialAgentState (.message (some (.num 5))) =
      .error .attributeErr := rfl

/-- C7 amended: a body that fails JSON decoding is caught at IDLE,
discarded, and the machine loops back to IDLE with nothing else changed;
but a body that decodes to a non-object JSON value raises an uncaught
AttributeError out of the IDLE visit. -/
theorem C7_malformed_input_handling (s : AgentState) (h : s.fsm = .IDLE) :
    fsm_step s (.message none) = .ok s ∧
    (∀ j : Json, (∀ fields, j ≠ .obj fields) →
      fsm_step s (.message (some j)) = .error .attributeErr) := by
  obtain ⟨f, ce, gl, tr⟩ := s
  simp only at h
  subst h
  constructor
  · rfl
  · intro j hj
    cases j with
    | obj fields => exact absurd rfl (hj fields)
    | null => rfl
    | bool b => rfl
    | num n => rfl
    | str t => rfl
    | arr es => rfl

/-- Witness for C7 at the initial state. -/
theorem C7_malformed_input_handling_witness :
    fsm_step initialAgentState (.message none) = .ok initialAgentState :=
  (C7_malformed_input_handling initialAgentState rfl).1

/-- C6 counterexample: the IDLE visit of the initial state that times out
with no message succeeds but appends no trace entry, so not every state
visit appends exactly one entry. -/
theorem C6_trace_counterexample :
    fsm_step initialAgentState .timeout = .ok initialAgentState ∧
    initialAgentState.fsm_trace = [] := ⟨rfl, rfl⟩

/-- C6 amended: every successful non-IDLE state visit appends exactly one
trace entry tagged with the visited state; an IDLE visit appends one entry
exactly when a message arrives and decodes to a JSON object, and appends
none on a timeout or a decode failure; consequently processing one decoded
event from IDLE appends exactly six entries in visitation order IDLE,
ANALYZING, PLANNING, RESPONDING, MONITORING, COMPLETED and the machine
returns to IDLE. -/
theorem C6_trace_per_visit :
    (∀ (s : AgentState) (i : IdleInput) (s2 : AgentState),
      fsm_step s i = .ok s2 → s.fsm ≠ .IDLE →
      ∃ e, s2.fsm_trace = s.fsm_trace ++ [e] ∧ e.state = s.fsm) ∧
    (∀ s : AgentState, s.fsm = .IDLE →
      fsm_step s .timeout = .ok s ∧
      fsm_step s (.message none) = .ok s ∧
      ∀ fields, ∃ s2 e,
        fsm_step s (.message (some (.obj fields))) = .ok s2 ∧
        s2.fsm_trace = s.fsm_trace ++ [e] ∧ e.state = .IDLE) ∧
    (∀ (s : AgentState) (fields : List (String × Json)) (sv : Int),
      s.fsm = .IDLE → eventSeverity fields = .ok sv →
      ∃ s6,
        runSteps s [.message (some (.obj fields)), .timeout, .timeout,
          .timeout, .timeout, .timeout] = .ok s6 ∧
        s6.fsm_trace.map TraceEntry.state =
          s.fsm_trace.map TraceEntry.state ++
            [.IDLE, .ANALYZING, .PLANNING, .RESPONDING, .MONITORING,
             .COMPLETED] ∧
        s6.fsm = .IDLE) := by
  refine ⟨?_, ?_, ?_⟩
  · intro s i s2 hstep hne
    cases hfsm : s.fsm with
    | IDLE => exact absurd hfsm hne
    | ANALYZING =>
      cases hce : s.current_event with
      | none => simp [fsm_step, hfsm, analyzing_run, hce] at hstep
      | some j =>
        cases j with
        | obj fields =>
          simp only [fsm_step, hfsm, analyzing_run, hce,
            Except.ok.injEq] at hstep
          subst hstep
          exact ⟨_, rfl, rfl⟩
        | null => simp [fsm_step, hfsm, analyzing_run, hce] at hstep
        | bool b => simp [fsm_step, hfsm, analyzing_run, hce] at hstep
        | num n => simp [fsm_step, hfsm, analyzing_run, hce] at hstep
        | str t => simp [fsm_step, hfsm, analyzing_run, hce] at hstep
        | arr es => simp [fsm_step, hfsm, analyzing_run, hce] at hstep
    | PLANNING =>
      cases hce : s.current_event with
      | none => simp [fsm_step, hfsm, planning_run, hce] at hstep
      | some j =>
        cases j with
        | obj fields =>
          cases hsev : eventSeverity fields with
          | error e =>
            simp [fsm_step, hfsm, planning_run, hce, hsev] at hstep
          | ok sv =>
            simp only [fsm_step, hfsm, planning_run, hce, hsev,
              Except.ok.injEq] at hstep
            subst hstep
            exact ⟨_, rfl, rfl⟩
        | null => simp [fsm_step, hfsm, planning_run, hce] at hstep
        | bool b => simp [fsm_step, hfsm, planning_run, hce] at hstep
        | num n => simp [fsm_step, hfsm, planning_run, hce] at hstep
        | str t => simp [fsm_step, hfsm, planning_run, hce] at hstep
        | arr es => simp [fsm_step, hfsm, planning_run, hce] at hstep
    | RESPONDING =>
      simp only [fsm_step, hfsm, responding_run, Except.ok.injEq] at hstep
      subst hstep
      exact ⟨_, rfl, rfl⟩
    | MONITORING =>
      by_cases h0 : s.goals.length = 0
      · simp [fsm_step, hfsm, monitoring_run, h0] at hstep
      · simp only [fsm_step, hfsm, monitoring_run] at hstep
        rw [if_neg h0] at hstep
        simp only [Except.ok.injEq] at hstep
        subst hstep
        exact ⟨_, rfl, rfl⟩
    | COMPLETED =>
      cases hce : s.current_event with
      | none => simp [fsm_step, hfsm, completed_run, hce] at hstep
      | some j =>
        cases j with
        | obj fields =>
          simp only [fsm_step, hfsm, completed_run, hce,
            Except.ok.injEq] at hstep
          subst hstep
          exact ⟨_, rfl, rfl⟩
        | null => simp [fsm_step, hfsm, completed_run, hce] at hstep
        | bool b => simp [fsm_step, hfsm, completed_run, hce] at hstep
        | num n => simp [fsm_step, hfsm, completed_run, hce] at hstep
        | str t => simp [fsm_step, hfsm, completed_run, hce] at hstep
        | arr es => simp [fsm_step, hfsm, completed_run, hce] at hstep
  · intro s hIdle
    obtain ⟨f, ce, gl, tr⟩ := s
    simp only at hIdle
    subst hIdle
    exact ⟨rfl, rfl, fun fields => ⟨_, _, rfl, rfl, rfl⟩⟩
  · intro s fields sv hIdle hsev
    obtain ⟨f, ce, gl, tr⟩ := s
    simp only at hIdle
    subst hIdle
    simp only [runSteps, fsm_step, idle_run, analyzing_run, planning_run,
      responding_run, monitoring_run, completed_run, hsev]
    split_ifs with h0
    · exfalso
      simp [respondingUpdate] at h0
    · refine ⟨_, rfl, ?_, rfl⟩
      simp

/-- Witness for C6 at the initial state: the timing-out IDLE visit
succeeds and loops. -/
theorem C6_trace_per_visit_witness :
    fsm_step initialAgentState IdleInput.timeout =
      Except.ok initialAgentState :=
  (C6_trace_per_visit.2.1 initialAgentState rfl).1
